import Mathlib

/-!
Verification of the deployment script in `src/cdk.ts` against its
natural-language specification.  The TypeScript program is shallowly
embedded: pure computations become Lean functions, the effectful run of
`generateStack` and `main` becomes a function from an environment of
external oracles (randomness, clock, filesystem, object storage,
orchestration service) to a trace of externally visible events plus a
result.
-/

namespace Cdk

/-- `const REGION = 'eu-central-1'` -/
def REGION : String := "eu-central-1"

/-- `const LAMBDA_BUCKET = 'cdk-test-tfn-lambdas'` -/
def LAMBDA_BUCKET : String := "cdk-test-tfn-lambdas"

/-! ### Identifier generator -/

/-- Lowercase hexadecimal digit character for a value; only the low four
bits matter.  Values below ten map to digit characters, the rest to the
letters `a` through `f`. -/
def hexChar (n : Nat) : Char :=
  let m := n % 16
  if m < 10 then Char.ofNat ('0'.toNat + m) else Char.ofNat ('a'.toNat + (m - 10))

/-- Node's `Buffer.toString('hex')` applied to a single byte: two lowercase
hexadecimal characters, high nibble first. -/
def byteToHex (b : Nat) : String := String.mk [hexChar (b / 16), hexChar b]

/-- `generateUUID(): return randomBytes(4).toString('hex')`.
The four bytes drawn from the process-wide random source are passed
explicitly; `randomBytes(4)` always yields exactly four bytes. -/
def generateUUID (b0 b1 b2 b3 : Nat) : String :=
  byteToHex b0 ++ byteToHex b1 ++ byteToHex b2 ++ byteToHex b3

/-- A character allowed after the first position of the orchestration
service naming grammar `^[a-zA-Z][-a-zA-Z0-9]*$`. -/
def isGrammarChar (c : Char) : Bool := c = '-' || c.isAlpha || c.isDigit

/-- The orchestration service's naming grammar `^[a-zA-Z][-a-zA-Z0-9]*$`. -/
def matchesNamingGrammar (s : String) : Bool :=
  match s.data with
  | [] => false
  | c :: cs => c.isAlpha && cs.all isGrammarChar

/-- A lowercase hexadecimal character. -/
def isLowerHexChar (c : Char) : Bool := c.isDigit || ('a' ≤ c && c ≤ 'f')

/-! ### Stack description data model

The constructs of the infrastructure-as-code framework used by
`SingleDeploymentStack` are embedded as plain records; attribute values
that the framework resolves only at deployment time (such as
`lambdaFn.functionName`, a reference to the not-yet-created function
resource) are embedded as template values `TVal` that can carry such
references. -/

/-- A template value: either a literal string, a late-bound reference to a
resource (identified by the construct id it was declared under), or a
concatenation of two such parts. -/
inductive TVal where
  | lit (s : String)
  | ref (constructId : String)
  | joinT (a b : TVal)
  deriving Repr, DecidableEq

/-- An imported bucket reference (`Bucket.fromBucketArn`). -/
structure BucketRef where
  bucketArn : String
  bucketName : String
  deriving Repr, DecidableEq

/-- The bucket name recovered from an ARN of the form
`arn:aws:s3:::<name>`: everything after the 13-character service prefix. -/
def bucketNameFromArn (arn : String) : String := String.mk (arn.data.drop 13)

/-- `Bucket.fromBucketArn(this, 'lambda-storage', arn)`. -/
def fromBucketArn (arn : String) : BucketRef :=
  { bucketArn := arn, bucketName := bucketNameFromArn arn }

/-- `new lambda.S3Code(bucket, key)`. -/
structure S3Code where
  bucket : BucketRef
  key : String
  deriving Repr, DecidableEq

/-- `new PolicyStatement({ actions, resources })`. -/
structure PolicyStatement where
  actions : List String
  resources : List String
  deriving Repr, DecidableEq

/-- `new Role(this, 'Role', { assumedBy, description })`, together with the
statements later appended by `addToPolicy`. -/
structure RoleDecl where
  logicalId : String
  assumedBy : String
  description : String
  statements : List PolicyStatement
  deriving Repr, DecidableEq

/-- `role.addToPolicy(statement)`. -/
def addToPolicy (r : RoleDecl) (s : PolicyStatement) : RoleDecl :=
  { r with statements := r.statements ++ [s] }

/-- `new lambda.Function(this, id, { runtime, handler, code, role })`. -/
structure FunctionDecl where
  logicalId : String
  constructId : String
  runtime : String
  handler : String
  code : S3Code
  roleId : String
  deriving Repr, DecidableEq

/-- The `functionName` attribute of a function declared without an explicit
name: a reference resolved by the orchestration service at deployment
time, identified by the construct the function was declared under. -/
def functionNameAttr (fn : FunctionDecl) : TVal := TVal.ref fn.constructId

/-- The removal policy of a resource. -/
inductive RemovalPolicyV where
  | destroy
  | retain
  deriving Repr, DecidableEq

/-- `new LogGroup(this, id, { logGroupName, retention, removalPolicy })`. -/
structure LogGroupDecl where
  logicalId : String
  constructId : String
  logGroupName : TVal
  retentionDays : Nat
  removalPolicy : RemovalPolicyV
  deriving Repr, DecidableEq

/-- `new HttpLambdaIntegration('lambda', fn, { payloadFormatVersion })`. -/
structure IntegrationDecl where
  constructId : String
  targetFunctionId : String
  payloadFormatVersion : String
  deriving Repr, DecidableEq

/-- One route added by `httpApi.addRoutes`. -/
structure RouteDecl where
  path : String
  methods : List String
  integration : IntegrationDecl
  deriving Repr, DecidableEq

/-- `new HttpApi(this, id, {})` with its added routes. -/
structure HttpApiDecl where
  logicalId : String
  constructId : String
  routes : List RouteDecl
  deriving Repr, DecidableEq

/-- The props of `SingleDeploymentStack`. -/
structure SingleDeploymentProps where
  deploymentName : String
  lambdaBucketName : String
  functionName : String
  deriving Repr, DecidableEq

/-- The stack description built by the `SingleDeploymentStack` constructor:
the declared resources and their cross-references. -/
structure SingleDeploymentStack where
  lambdaBucket : BucketRef
  functionCode : S3Code
  lambdaRole : RoleDecl
  lambdaFn : FunctionDecl
  logGroup : LogGroupDecl
  httpApi : HttpApiDecl
  deriving Repr, DecidableEq

/-- `const internalFunctionName = 'helloWorld'` — the fixed internal
function name of the synthesizer. -/
def internalFunctionName : String := "helloWorld"

/-- The `SingleDeploymentStack` constructor, line by line.  `ids` is the
synthesis framework's assignment of internal (logical) identifiers to
declared constructs; the source never chooses these itself. -/
def singleDeploymentStackWithIds (ids : String → String)
    (props : SingleDeploymentProps) : SingleDeploymentStack :=
  let lambdaBucket := fromBucketArn ("arn:aws:s3:::" ++ props.lambdaBucketName)
  let functionCode : S3Code := { bucket := lambdaBucket, key := props.functionName ++ ".zip" }
  let lambdaRole0 : RoleDecl :=
    { logicalId := ids "Role"
      assumedBy := "lambda.amazonaws.com"
      description := "Example role"
      statements := [] }
  let lambdaFn : FunctionDecl :=
    { logicalId := ids internalFunctionName
      constructId := internalFunctionName
      runtime := "nodejs14.x"
      handler := "index.handler"
      code := functionCode
      roleId := "Role" }
  let logGroup : LogGroupDecl :=
    { logicalId := ids ("logGroup" ++ internalFunctionName)
      constructId := "logGroup" ++ internalFunctionName
      logGroupName := TVal.joinT (TVal.lit "/aws/lambda/") (functionNameAttr lambdaFn)
      retentionDays := 5
      removalPolicy := RemovalPolicyV.destroy }
  let lambdaRole := addToPolicy lambdaRole0
    { actions := ["logs:PutLogEvents", "logs:CreateLogStream"]
      resources := ["arn:aws:logs:*:*:log-group:/aws/lambda/*"] }
  let lambdaIntegration : IntegrationDecl :=
    { constructId := "lambda"
      targetFunctionId := lambdaFn.constructId
      payloadFormatVersion := "2.0" }
  let httpApi : HttpApiDecl :=
    { logicalId := ids props.deploymentName
      constructId := props.deploymentName
      routes := [{ path := "/\x7bproxy+\x7d"
                   methods := ["ANY"]
                   integration := lambdaIntegration }] }
  { lambdaBucket := lambdaBucket
    functionCode := functionCode
    lambdaRole := lambdaRole
    lambdaFn := lambdaFn
    logGroup := logGroup
    httpApi := httpApi }

/-- The stack description with the identity assignment of internal ids. -/
def singleDeploymentStack (props : SingleDeploymentProps) : SingleDeploymentStack :=
  singleDeploymentStackWithIds (fun s => s) props

/-! ### Template document -/

/-- A nested key-value document (the declarative template form). -/
inductive Json where
  | str (s : String)
  | num (n : Nat)
  | arr (xs : List Json)
  | obj (fields : List (String × Json))
  deriving Repr

mutual

/-- `JSON.stringify` of a nested document (no pretty-printing). -/
def Json.stringify : Json → String
  | Json.str s => "\"" ++ s ++ "\""
  | Json.num n => toString n
  | Json.arr xs => "[" ++ Json.stringifyArr xs ++ "]"
  | Json.obj fs => "\x7b" ++ Json.stringifyObj fs ++ "\x7d"

/-- Comma-separated serialization of an array's elements. -/
def Json.stringifyArr : List Json → String
  | [] => ""
  | [x] => Json.stringify x
  | x :: xs => Json.stringify x ++ "," ++ Json.stringifyArr xs

/-- Comma-separated serialization of an object's fields. -/
def Json.stringifyObj : List (String × Json) → String
  | [] => ""
  | [(k, v)] => "\"" ++ k ++ "\":" ++ Json.stringify v
  | (k, v) :: fs => "\"" ++ k ++ "\":" ++ Json.stringify v ++ "," ++ Json.stringifyObj fs

end

/-- Rendering of a template value into the document: literals stay strings,
late-bound references become `Ref` nodes, concatenations become
`Fn::Join` nodes. -/
def TVal.render : TVal → Json
  | TVal.lit s => Json.str s
  | TVal.ref cid => Json.obj [("Ref", Json.str cid)]
  | TVal.joinT a b =>
      Json.obj [("Fn::Join", Json.arr [Json.str "", Json.arr [TVal.render a, TVal.render b]])]

/-- Modelled from the spec: `toCloudFormation` is imported from `./utils`,
a file of this repository that is not under `src/`.  The spec describes it
as a pure conversion of the stack description into the serialized
nested-document template, with no network I/O at this stage.  It is
embedded as a pure function from the stack description to a nested
key-value document listing the declared resources and their properties. -/
def toCloudFormation (s : SingleDeploymentStack) : Json :=
  Json.obj [("Resources", Json.obj
    [ (s.lambdaRole.logicalId, Json.obj
        [ ("Type", Json.str "AWS::IAM::Role")
        , ("Properties", Json.obj
            [ ("AssumedBy", Json.str s.lambdaRole.assumedBy)
            , ("Description", Json.str s.lambdaRole.description)
            , ("Policies", Json.arr (s.lambdaRole.statements.map fun st =>
                Json.obj [ ("Actions", Json.arr (st.actions.map Json.str))
                         , ("Resources", Json.arr (st.resources.map Json.str)) ])) ]) ])
    , (s.lambdaFn.logicalId, Json.obj
        [ ("Type", Json.str "AWS::Lambda::Function")
        , ("Properties", Json.obj
            [ ("Code", Json.obj [ ("S3Bucket", Json.str s.lambdaFn.code.bucket.bucketName)
                                , ("S3Key", Json.str s.lambdaFn.code.key) ])
            , ("Runtime", Json.str s.lambdaFn.runtime)
            , ("Handler", Json.str s.lambdaFn.handler)
            , ("Role", Json.str s.lambdaFn.roleId) ]) ])
    , (s.logGroup.logicalId, Json.obj
        [ ("Type", Json.str "AWS::Logs::LogGroup")
        , ("Properties", Json.obj
            [ ("LogGroupName", s.logGroup.logGroupName.render)
            , ("RetentionInDays", Json.num s.logGroup.retentionDays)
            , ("DeletionPolicy", Json.str (match s.logGroup.removalPolicy with
                | RemovalPolicyV.destroy => "Delete"
                | RemovalPolicyV.retain => "Retain")) ]) ])
    , (s.httpApi.logicalId, Json.obj
        [ ("Type", Json.str "AWS::ApiGatewayV2::Api")
        , ("Routes", Json.arr (s.httpApi.routes.map fun r =>
            Json.obj [ ("Path", Json.str r.path)
                     , ("Methods", Json.arr (r.methods.map Json.str))
                     , ("IntegrationTarget", Json.str r.integration.targetFunctionId)
                     , ("PayloadFormatVersion", Json.str r.integration.payloadFormatVersion) ])) ]) ]) ]

/-! ### The effectful run

`generateStack` and `main` interact with the outside world.  The
interaction is embedded as a function from an environment of external
oracles to a list of externally visible events plus the run's result; a
failing oracle makes the corresponding step fail, and a failure
short-circuits the rest of the run, exactly as a rejected `await` does. -/

/-- External oracles of one run: the four random bytes drawn by
`randomBytes(4)`, the clock value `+new Date()`, and the outcomes of the
local file read, the object-storage PUT, and the `CreateStack` call. -/
structure Env where
  b0 : Nat
  b1 : Nat
  b2 : Nat
  b3 : Nat
  now : Nat
  localFileExists : Bool
  s3PutOk : Bool
  cfnCreateOk : Bool
  deriving Repr, DecidableEq

/-- Externally visible events.  `s3Delete` and `cfnDescribeStacks` are the
external actions that cleanup and completion-polling would consist of; the
theorems below show the program never emits them. -/
inductive Event where
  | genToken (token : String)
  | readLocalFile (path : String)
  | s3Put (bucket key : String)
  | s3Delete (bucket key : String)
  | cfnCreateStack (stackName templateBody : String) (capabilities : List String)
  | cfnDescribeStacks (stackName : String)
  deriving Repr, DecidableEq

/-- Whether an event is a network call (to object storage or to the
orchestration service). -/
def Event.isNetwork : Event → Bool
  | Event.genToken _ => false
  | Event.readLocalFile _ => false
  | Event.s3Put _ _ => true
  | Event.s3Delete _ _ => true
  | Event.cfnCreateStack _ _ _ => true
  | Event.cfnDescribeStacks _ => true

/-- Whether an event deletes or otherwise cleans up an uploaded artifact. -/
def Event.isCleanup : Event → Bool
  | Event.s3Delete _ _ => true
  | _ => false

/-- Whether an event polls the orchestration service for stack status. -/
def Event.isPoll : Event → Bool
  | Event.cfnDescribeStacks _ => true
  | _ => false

/-- Whether an event is a stack-creation request. -/
def Event.isCreateStack : Event → Bool
  | Event.cfnCreateStack _ _ _ => true
  | _ => false

/-- `pathJoin(__dirname, '../lambda.zip')`: the fixed local archive path. -/
def lambdaZipPath : String := "../lambda.zip"

/-- The options record of `generateStack`. -/
structure GenerateStackOptions where
  deploymentName : String
  lambdaBucketName : String
  deriving Repr, DecidableEq

/-- The token `generateUUID()` produces in a run. -/
def runToken (env : Env) : String := generateUUID env.b0 env.b1 env.b2 env.b3

/-- The run of `generateStack`: generate the token, build the function
name, read the local archive, upload it under `<functionName>.zip`, then
synthesize the stack description and convert it (a pure step emitting no
events).  A failed file read or rejected upload aborts the run. -/
def generateStackRun (env : Env) (opts : GenerateStackOptions) :
    List Event × Except String Json :=
  let functionName := opts.deploymentName ++ "_" ++ runToken env
  let key := functionName ++ ".zip"
  let pre := [Event.genToken (runToken env), Event.readLocalFile lambdaZipPath]
  if env.localFileExists = false then
    (pre, Except.error "ENOENT: no such file or directory")
  else if env.s3PutOk = false then
    (pre ++ [Event.s3Put opts.lambdaBucketName key], Except.error "PutObject rejected")
  else
    let stack := singleDeploymentStack
      { deploymentName := opts.deploymentName
        lambdaBucketName := opts.lambdaBucketName
        functionName := functionName }
    (pre ++ [Event.s3Put opts.lambdaBucketName key], Except.ok (toCloudFormation stack))

/-- The deployment name of a run: `tfn-${+new Date()}`. -/
def runDeploymentName (env : Env) : String := "tfn-" ++ toString env.now

/-- The function name of a run: `${deploymentName}_${generateUUID()}`. -/
def runFunctionName (env : Env) : String := runDeploymentName env ++ "_" ++ runToken env

/-- The object key of a run's uploaded artifact: `${functionName}.zip`. -/
def runArtifactKey (env : Env) : String := runFunctionName env ++ ".zip"

/-- The orchestration service's initial acknowledgement of a
stack-creation request. -/
structure CreateStackAck where
  stackId : String
  deriving Repr, DecidableEq

/-- The run of `main`: derive the deployment name from the clock, run
`generateStack`, then issue one `CreateStack` request with the stack name,
the serialized template body and the `CAPABILITY_IAM` flag, resolving with
the service's initial acknowledgement.  Any failure propagates to the top
level unhandled. -/
def mainRun (env : Env) : List Event × Except String CreateStackAck :=
  let deploymentName := runDeploymentName env
  let r := generateStackRun env
    { deploymentName := deploymentName, lambdaBucketName := LAMBDA_BUCKET }
  match r with
  | (tr, Except.error e) => (tr, Except.error e)
  | (tr, Except.ok template) =>
    let tr2 := tr ++ [Event.cfnCreateStack deploymentName template.stringify ["CAPABILITY_IAM"]]
    if env.cfnCreateOk then
      (tr2, Except.ok { stackId := deploymentName })
    else
      (tr2, Except.error "CreateStack rejected")

/-! ### Helper lemmas -/

/-- Every hexadecimal digit character produced by `hexChar` is a lowercase
hexadecimal character. -/
theorem isLowerHexChar_hexChar (n : Nat) : isLowerHexChar (hexChar n) = true := by
  have h : n % 16 < 16 := Nat.mod_lt _ (by norm_num)
  unfold hexChar
  set m := n % 16 with hm
  interval_cases m <;> decide

/-- `byteToHex` always yields two characters. -/
theorem byteToHex_data_length (b : Nat) : (byteToHex b).data.length = 2 := rfl

/-- The characters of `byteToHex`. -/
theorem byteToHex_data (b : Nat) : (byteToHex b).data = [hexChar (b / 16), hexChar b] := rfl

/-- The generated identifier always consists of exactly eight characters. -/
theorem generateUUID_data_length (b0 b1 b2 b3 : Nat) :
    (generateUUID b0 b1 b2 b3).data.length = 8 := by
  simp [generateUUID, String.data_append, byteToHex_data]

/-- The generated identifier has string length eight. -/
theorem generateUUID_length (b0 b1 b2 b3 : Nat) :
    (generateUUID b0 b1 b2 b3).length = 8 := generateUUID_data_length b0 b1 b2 b3

/-- The prefix used to import the lambda bucket has thirteen characters. -/
theorem s3ArnPrefix_data_length : ("arn:aws:s3:::" : String).data.length = 13 := rfl

/-- Importing the bucket by its ARN recovers exactly the bucket name. -/
theorem bucketNameFromArn_append (bn : String) :
    bucketNameFromArn ("arn:aws:s3:::" ++ bn) = bn := by
  apply String.ext
  rw [bucketNameFromArn, String.data_append, show (13 : Nat) = ("arn:aws:s3:::" : String).data.length from rfl,
    List.drop_left]

/-! ### C1 — claim theorems -/

/-- C1 (counterexample): the claim that every `generateUUID` output matches
the orchestration service's naming grammar `^[a-zA-Z][-a-zA-Z0-9]*$` is
false: the random bytes `00 00 00 00` yield the identifier `"00000000"`,
which begins with a digit rather than a letter. -/
theorem generateUUID_grammar_counterexample :
    ¬ matchesNamingGrammar (generateUUID 0 0 0 0) = true := by decide

/-- C1 (amended): for every invocation of `generateUUID` (i.e. for every
four random bytes drawn by `randomBytes(4)`), the returned identifier is a
fixed-length string of exactly eight lowercase hexadecimal characters; it
need not match the naming grammar `^[a-zA-Z][-a-zA-Z0-9]*$`, since its
first character may be a digit. -/
theorem generateUUID_fixed_length_lower_hex (b0 b1 b2 b3 : Nat) :
    (generateUUID b0 b1 b2 b3).length = 8 ∧
    (generateUUID b0 b1 b2 b3).data.all isLowerHexChar = true := by
  constructor
  · exact generateUUID_data_length b0 b1 b2 b3
  · simp [generateUUID, String.data_append, byteToHex_data, isLowerHexChar_hexChar]

/-! ### C2 — claim theorem -/

/-- C2: for every deployment name, bucket name and artifact name — and for
every assignment of framework-internal identifiers — the synthesized log
group's name is the template value `/aws/lambda/` joined with the name
reference of the function declared under the fixed internal function name
`helloWorld`; in particular it is a constant independent of the deployment
name. -/
theorem logGroupName_fixed (ids : String → String)
    (deploymentName lambdaBucketName functionName : String) :
    (singleDeploymentStackWithIds ids
      { deploymentName := deploymentName
        lambdaBucketName := lambdaBucketName
        functionName := functionName }).logGroup.logGroupName
      = TVal.joinT (TVal.lit "/aws/lambda/") (TVal.ref internalFunctionName) := rfl

/-! ### C5 — claim theorem -/

/-- C5: for every deployment name, bucket name and artifact name, the
synthesized compute function resource references exactly the bucket passed
to synthesis and the key obtained by appending `.zip` to the artifact
name. -/
theorem functionCode_references_bucket_and_key (ids : String → String)
    (deploymentName lambdaBucketName functionName : String) :
    (singleDeploymentStackWithIds ids
      { deploymentName := deploymentName
        lambdaBucketName := lambdaBucketName
        functionName := functionName }).lambdaFn.code.bucket.bucketName = lambdaBucketName ∧
    (singleDeploymentStackWithIds ids
      { deploymentName := deploymentName
        lambdaBucketName := lambdaBucketName
        functionName := functionName }).lambdaFn.code.key = functionName ++ ".zip" := by
  refine ⟨?_, rfl⟩
  show bucketNameFromArn ("arn:aws:s3:::" ++ lambdaBucketName) = lambdaBucketName
  exact bucketNameFromArn_append lambdaBucketName

/-! ### C7 — claim theorem -/

/-- The stack description with every framework-assigned internal
identifier erased: the structural view compared by C7. -/
def eraseIds (s : SingleDeploymentStack) : SingleDeploymentStack :=
  { s with
    lambdaRole := { s.lambdaRole with logicalId := "" }
    lambdaFn := { s.lambdaFn with logicalId := "" }
    logGroup := { s.logGroup with logicalId := "" }
    httpApi := { s.httpApi with logicalId := "" } }

/-- C7: synthesizing the stack twice from the same deployment name, bucket
name and artifact name produces structurally identical resource
declarations (function, role, log group, gateway and route), whatever
internal identifiers the framework assigns on each invocation. -/
theorem synthesis_deterministic_up_to_ids (ids1 ids2 : String → String)
    (props : SingleDeploymentProps) :
    eraseIds (singleDeploymentStackWithIds ids1 props)
      = eraseIds (singleDeploymentStackWithIds ids2 props) := rfl

/-! ### Run-level definitions used by the theorems -/

/-- The template a run synthesizes: the converted stack description built
from the run's deployment name, the fixed bucket and the run's function
name. -/
def runTemplate (env : Env) : Json :=
  toCloudFormation (singleDeploymentStack
    { deploymentName := runDeploymentName env
      lambdaBucketName := LAMBDA_BUCKET
      functionName := runFunctionName env })

/-- Whether a run's result is a failure. -/
def resultIsError {α : Type} (r : Except String α) : Bool :=
  match r with
  | Except.error _ => true
  | Except.ok _ => false

/-- An environment in which every external step succeeds. -/
def envAllOk : Env := ⟨0, 0, 0, 0, 0, true, true, true⟩

/-- An environment in which the local archive is missing. -/
def envNoFile : Env := ⟨0, 0, 0, 0, 0, false, true, true⟩

/-- An environment in which the stack-creation request is rejected after a
successful upload. -/
def envCfnFails : Env := ⟨0, 0, 0, 0, 0, true, true, false⟩

/-! ### C3 — claim theorem -/

/-- C3: when the fixed local archive path does not exist, the run of
`generateStack` fails with the local-file-access error, and no network
call (neither to object storage nor to the orchestration service) appears
in its trace. -/
theorem missing_file_fails_before_network (env : Env) (opts : GenerateStackOptions)
    (h : env.localFileExists = false) :
    resultIsError (generateStackRun env opts).2 = true ∧
    ((generateStackRun env opts).1.all fun e => !e.isNetwork) = true := by
  simp [generateStackRun, h, resultIsError, Event.isNetwork]

/-- C3 witness: a concrete run with the archive missing. -/
theorem missing_file_fails_before_network_witness :
    envNoFile.localFileExists = false ∧
    (resultIsError (generateStackRun envNoFile ⟨"tfn-0", LAMBDA_BUCKET⟩).2 = true ∧
     ((generateStackRun envNoFile ⟨"tfn-0", LAMBDA_BUCKET⟩).1.all fun e => !e.isNetwork) = true) :=
  ⟨rfl, missing_file_fails_before_network envNoFile ⟨"tfn-0", LAMBDA_BUCKET⟩ rfl⟩

/-! ### C4 — claim theorems -/

/-- C4 (counterexample): two runs can draw different random tokens while
the clock reads the same value; their `generateUUID` tokens then differ
but their stack names (`tfn-${+new Date()}`, which never mentions the
token) coincide, so differing tokens do not make the stack names
differ. -/
theorem distinct_tokens_same_stack_name_counterexample :
    runToken ⟨0, 0, 0, 0, 5, true, true, true⟩ ≠ runToken ⟨0, 0, 0, 1, 5, true, true, true⟩ ∧
    runDeploymentName ⟨0, 0, 0, 0, 5, true, true, true⟩
      = runDeploymentName ⟨0, 0, 0, 1, 5, true, true, true⟩ := by
  constructor
  · decide
  · rfl

/-- C4 (amended): for every pair of runs whose generated tokens differ,
the uploaded artifact object keys differ; the stack name, however, is
determined by the run's clock value alone and never mentions the token,
so two runs with equal clock values collide on stack name even when their
tokens differ. -/
theorem distinct_tokens_distinct_artifact_keys (e1 e2 : Env)
    (h : runToken e1 ≠ runToken e2) :
    runArtifactKey e1 ≠ runArtifactKey e2 ∧
    (e1.now = e2.now → runDeploymentName e1 = runDeploymentName e2) := by
  constructor
  · intro heq
    apply h
    have hd := congrArg String.data heq
    simp only [runArtifactKey, runFunctionName, String.data_append, List.append_assoc] at hd
    have hlen : (['_'] ++ ((runToken e1).data ++ ['.', 'z', 'i', 'p'])).length
        = (['_'] ++ ((runToken e2).data ++ ['.', 'z', 'i', 'p'])).length := by
      simp [List.length_append, runToken, generateUUID_data_length, generateUUID_length]
    have h2 := (List.append_inj' hd hlen).2
    have h3 := List.append_cancel_left h2
    have h4 := List.append_cancel_right h3
    exact String.ext h4
  · intro hnow
    simp [runDeploymentName, hnow]

/-- C4 witness: two concrete runs with distinct tokens. -/
theorem distinct_tokens_distinct_artifact_keys_witness :
    runToken ⟨0, 0, 0, 2, 5, true, true, true⟩ ≠ runToken ⟨0, 0, 0, 3, 5, true, true, true⟩ ∧
    (runArtifactKey ⟨0, 0, 0, 2, 5, true, true, true⟩
        ≠ runArtifactKey ⟨0, 0, 0, 3, 5, true, true, true⟩ ∧
     ((⟨0, 0, 0, 2, 5, true, true, true⟩ : Env).now = (⟨0, 0, 0, 3, 5, true, true, true⟩ : Env).now →
        runDeploymentName ⟨0, 0, 0, 2, 5, true, true, true⟩
          = runDeploymentName ⟨0, 0, 0, 3, 5, true, true, true⟩)) :=
  ⟨by decide, distinct_tokens_distinct_artifact_keys _ _ (by decide)⟩

/-! ### C6 — claim theorem -/

/-- C6: whenever the earlier steps succeed, the run of `main` issues
exactly one stack-creation request, carrying the stack name, the
serialized template body and the `CAPABILITY_IAM` capability flag; the
trace contains no status-polling call, and when the service accepts the
request the run resolves with the service's initial acknowledgement. -/
theorem submitter_single_create_no_poll (env : Env)
    (h1 : env.localFileExists = true) (h2 : env.s3PutOk = true) :
    (mainRun env).1.filter Event.isCreateStack
      = [Event.cfnCreateStack (runDeploymentName env) (runTemplate env).stringify
          ["CAPABILITY_IAM"]] ∧
    ((mainRun env).1.all fun e => !e.isPoll) = true ∧
    (env.cfnCreateOk = true →
      (mainRun env).2 = Except.ok { stackId := runDeploymentName env }) := by
  cases hc : env.cfnCreateOk <;>
    simp [mainRun, generateStackRun, h1, h2, hc, Event.isCreateStack, Event.isPoll,
      runTemplate, runArtifactKey, runFunctionName, singleDeploymentStack]

/-- C6 witness: a concrete fully successful run. -/
theorem submitter_single_create_no_poll_witness :
    envAllOk.localFileExists = true ∧ envAllOk.s3PutOk = true ∧
    ((mainRun envAllOk).1.filter Event.isCreateStack
        = [Event.cfnCreateStack (runDeploymentName envAllOk) (runTemplate envAllOk).stringify
            ["CAPABILITY_IAM"]] ∧
     ((mainRun envAllOk).1.all fun e => !e.isPoll) = true ∧
     (envAllOk.cfnCreateOk = true →
       (mainRun envAllOk).2 = Except.ok { stackId := runDeploymentName envAllOk })) :=
  ⟨rfl, rfl, submitter_single_create_no_poll envAllOk rfl rfl⟩

/-! ### C8 — claim theorem -/

/-- C8: in a successful run, the trace is exactly the token generation,
then the local-archive read, then the object-storage upload, then the
stack-creation request, in this order, each exactly once; the synthesis
and conversion step between upload and submission is the pure function
`runTemplate` and contributes no event, and the run resolves with the
acknowledgement. -/
theorem run_steps_in_order (env : Env)
    (h1 : env.localFileExists = true) (h2 : env.s3PutOk = true)
    (h3 : env.cfnCreateOk = true) :
    (mainRun env).1 = [Event.genToken (runToken env),
      Event.readLocalFile lambdaZipPath,
      Event.s3Put LAMBDA_BUCKET (runArtifactKey env),
      Event.cfnCreateStack (runDeploymentName env) (runTemplate env).stringify
        ["CAPABILITY_IAM"]] ∧
    (mainRun env).2 = Except.ok { stackId := runDeploymentName env } := by
  simp [mainRun, generateStackRun, h1, h2, h3,
    runTemplate, runArtifactKey, runFunctionName, singleDeploymentStack]

/-- C8 witness: the concrete fully successful run. -/
theorem run_steps_in_order_witness :
    envAllOk.localFileExists = true ∧ envAllOk.s3PutOk = true ∧ envAllOk.cfnCreateOk = true ∧
    ((mainRun envAllOk).1 = [Event.genToken (runToken envAllOk),
        Event.readLocalFile lambdaZipPath,
        Event.s3Put LAMBDA_BUCKET (runArtifactKey envAllOk),
        Event.cfnCreateStack (runDeploymentName envAllOk) (runTemplate envAllOk).stringify
          ["CAPABILITY_IAM"]] ∧
     (mainRun envAllOk).2 = Except.ok { stackId := runDeploymentName envAllOk }) :=
  ⟨rfl, rfl, rfl, run_steps_in_order envAllOk rfl rfl rfl⟩

/-! ### C9 — claim theorem -/

/-- C9: if any step of a run fails, the run's result is a failure (the
error propagates unrecovered to the top level); no event in the trace
deletes or cleans up the uploaded artifact, and no event occurs twice (no
step is retried). -/
theorem failure_propagates_no_cleanup_no_retry (env : Env)
    (h : env.localFileExists = false ∨ env.s3PutOk = false ∨ env.cfnCreateOk = false) :
    resultIsError (mainRun env).2 = true ∧
    ((mainRun env).1.all fun e => !e.isCleanup) = true ∧
    (mainRun env).1.Nodup := by
  rcases h with h | h | h
  · simp [mainRun, generateStackRun, h, resultIsError, Event.isCleanup]
  · cases hl : env.localFileExists <;>
      simp [mainRun, generateStackRun, h, hl, resultIsError, Event.isCleanup]
  · cases hl : env.localFileExists
    · simp [mainRun, generateStackRun, hl, resultIsError, Event.isCleanup]
    · cases hp : env.s3PutOk <;>
        simp [mainRun, generateStackRun, h, hl, hp, resultIsError, Event.isCleanup]

/-- C9 witness: a concrete run in which the stack-creation request is
rejected after a successful upload. -/
theorem failure_propagates_no_cleanup_no_retry_witness :
    (envCfnFails.localFileExists = false ∨ envCfnFails.s3PutOk = false ∨
      envCfnFails.cfnCreateOk = false) ∧
    (resultIsError (mainRun envCfnFails).2 = true ∧
     ((mainRun envCfnFails).1.all fun e => !e.isCleanup) = true ∧
     (mainRun envCfnFails).1.Nodup) :=
  ⟨Or.inr (Or.inr rfl),
   failure_propagates_no_cleanup_no_retry envCfnFails (Or.inr (Or.inr rfl))⟩

/-! ### C10 — claim theorem -/

/-- C10: in a run that reaches the upload, the object key of the PUT
request equals the code key referenced by the synthesized template's
compute function resource, and both equal
`<deploymentName>_<token>.zip`, built from the one function name the run
computes. -/
theorem upload_key_matches_template_key (env : Env)
    (h1 : env.localFileExists = true) (h2 : env.s3PutOk = true) :
    Event.s3Put LAMBDA_BUCKET (runArtifactKey env) ∈ (mainRun env).1 ∧
    (singleDeploymentStack
      { deploymentName := runDeploymentName env
        lambdaBucketName := LAMBDA_BUCKET
        functionName := runFunctionName env }).lambdaFn.code.key = runArtifactKey env ∧
    runArtifactKey env = runDeploymentName env ++ "_" ++ runToken env ++ ".zip" := by
  refine ⟨?_, rfl, rfl⟩
  cases hc : env.cfnCreateOk <;>
    simp [mainRun, generateStackRun, h1, h2, hc, runArtifactKey, runFunctionName]

/-- C10 witness: the concrete fully successful run. -/
theorem upload_key_matches_template_key_witness :
    envAllOk.localFileExists = true ∧ envAllOk.s3PutOk = true ∧
    (Event.s3Put LAMBDA_BUCKET (runArtifactKey envAllOk) ∈ (mainRun envAllOk).1 ∧
     (singleDeploymentStack
       { deploymentName := runDeploymentName envAllOk
         lambdaBucketName := LAMBDA_BUCKET
         functionName := runFunctionName envAllOk }).lambdaFn.code.key = runArtifactKey envAllOk ∧
     runArtifactKey envAllOk = runDeploymentName envAllOk ++ "_" ++ runToken envAllOk ++ ".zip") :=
  ⟨rfl, rfl, upload_key_matches_template_key envAllOk rfl rfl⟩

end Cdk
